import Mathlib

/-!
Shallow embedding of the credit-card transaction streaming API
(repository `credit-card-tx-api`, crate `txapi`).

The definitions below are translated from the Rust sources:
  * `src/api/ws.rs`      — websocket session: subscription registry
    (`client::WsClient`), channel parsing (`client::Channel`), inbound
    command handling (`handle_incoming`, `read`) and the outbound
    fan-out loop (`write`);
  * `src/stream/transactions.rs` — the transactions broadcast channel
    and its buffer-size configuration;
  * `src/domain/mod.rs`  — the `Transaction` domain model, the Luhn
    checksum used by the mock generator, and `Transaction::simple_mock`.

Randomness and the serde JSON codec are external libraries; where the
code consumes them, the embedding takes their outcome as an explicit
parameter (the drawn values; the parse result of a frame) or models
their documented contract (`rand_range_inclusive`, the JSON tree).
-/

/-- Channel enumeration of `src/api/ws.rs` (`client::Channel`): the two
topics a websocket client can subscribe to. -/
inductive Channel
  | Heartbeat
  | Transactions
  deriving DecidableEq

/-- Heartbeat value object of `src/domain/mod.rs` (`heartbeat::Heartbeat`). -/
structure Heartbeat where
  status : String

/-- Merchant category of a transaction, from `src/domain/mod.rs`
(`transactions::TransactionCategory`): a closed enumeration of 8 values. -/
inductive TransactionCategory
  | Grocery
  | GasStation
  | Restaurant
  | OnlineRetail
  | Entertainment
  | Travel
  | Healthcare
  | Utilities
  deriving DecidableEq

/-- Geographic location data of a transaction, from `src/domain/mod.rs`
(`transactions::Location`). Latitude and longitude are `f64` in the
source and are modelled by `Float`, carried opaquely (no arithmetic on
them is performed anywhere in the embedded code). -/
structure Location where
  city : String
  country_iso : String
  latitude : Float
  longitude : Float

/-- Credit-card transaction domain model, from `src/domain/mod.rs`
(`transactions::Transaction`). `amount_usd_cents` is `u64` in the source
and is modelled by `Nat` (the code never performs arithmetic that could
overflow it: amounts are drawn from ranges bounded by 100000). -/
structure Transaction where
  id : String
  timestamp : String
  cc_number : String
  category : TransactionCategory
  amount_usd_cents : Nat
  location : Location
  is_online : Bool

/-- Typical amount range (min, max) in cents for a category, from
`src/domain/mod.rs` (`TransactionCategory::typical_amount_range`). -/
def TransactionCategory.typical_amount_range : TransactionCategory → Nat × Nat
  | TransactionCategory.Grocery => (500, 15000)
  | TransactionCategory.GasStation => (2000, 8000)
  | TransactionCategory.Restaurant => (1000, 12000)
  | TransactionCategory.OnlineRetail => (1500, 25000)
  | TransactionCategory.Entertainment => (1000, 20000)
  | TransactionCategory.Travel => (5000, 100000)
  | TransactionCategory.Healthcare => (3000, 50000)
  | TransactionCategory.Utilities => (5000, 30000)

/-- Luhn doubling step as written in `calculate_luhn_checksum`
(`src/domain/mod.rs`): the digit is doubled and 9 is subtracted when the
doubled value exceeds 9. -/
def luhnDouble (d : Nat) : Nat :=
  if 2 * d > 9 then 2 * d - 9 else 2 * d

/-- Weighted digit sum over a list read with an explicit running index:
this mirrors the source's `digits.iter().rev().enumerate()` pipeline in
`calculate_luhn_checksum` (`src/domain/mod.rs`), applied to the already
reversed digit list; a digit at an even index is doubled (with the
subtract-9 correction). -/
def luhn_weighted_sum : Nat → List Nat → Nat
  | _, [] => 0
  | idx, d :: rest =>
      (if idx % 2 = 0 then luhnDouble d else d) + luhn_weighted_sum (idx + 1) rest

/-- Luhn checksum digit of a digit sequence, from `src/domain/mod.rs`
(`Transaction::calculate_luhn_checksum`): the reversed sequence is summed
with doubling at even offsets and the checksum is `(10 - sum % 10) % 10`. -/
def calculate_luhn_checksum (digits : List Nat) : Nat :=
  (10 - luhn_weighted_sum 0 digits.reverse % 10) % 10

/-- Digit sequence of a generated card number, from `src/domain/mod.rs`
(`Transaction::generate_valid_cc_number`): the Visa prefix digit 4, the
14 drawn digits `ds`, then the appended Luhn checksum digit. -/
def generate_valid_cc_digits (ds : List Nat) : List Nat :=
  (4 :: ds) ++ [calculate_luhn_checksum (4 :: ds)]

/-- String form of the generated card number, from `src/domain/mod.rs`
(`digits.iter().map(|d| d.to_string()).collect()`). -/
def generate_valid_cc_number (ds : List Nat) : String :=
  String.join ((generate_valid_cc_digits ds).map (fun d => toString d))

/-- Luhn validation sum of a full digit sequence: every second digit
counted from the right (the rightmost digit, the check digit, being the
first and left undoubled) is doubled with the subtract-9 correction.
Starting the running index at 1 on the reversed list places the doubling
exactly on the second, fourth, ... digits from the right. -/
def luhn_sum (digits : List Nat) : Nat :=
  luhn_weighted_sum 1 digits.reverse

/-- Modelled contract of `rand::Rng::random_range(lo..=hi)` as used by
`Transaction::simple_mock` (`src/domain/mod.rs`): for every draw `r` the
result lies in the inclusive range `[lo, hi]` (when `lo ≤ hi`), and every
value of the range is reached by some draw. -/
def rand_range_inclusive (r lo hi : Nat) : Nat :=
  lo + r % (hi + 1 - lo)

/-- Outcomes of the random draws made by one call of
`Transaction::simple_mock` (`src/domain/mod.rs`): the weighted category
draw, the location draw, the raw draw feeding `random_range` for the
amount, the `random_bool(0.3)` outcome, the uuid and timestamp strings,
and the 14 digit draws of `generate_valid_cc_number`. -/
structure MockDraws where
  category : TransactionCategory
  location : Location
  rAmount : Nat
  isOnline : Bool
  id : String
  timestamp : String
  ccDigits : List Nat

/-- Mock transaction generator, from `src/domain/mod.rs`
(`Transaction::simple_mock`), as a function of the draw outcomes: the
amount is drawn from the category's typical range with the inclusive
`random_range`, the card number is generated with the Luhn checksum. -/
def Transaction.simple_mock (d : MockDraws) : Transaction where
  id := d.id
  timestamp := d.timestamp
  cc_number := generate_valid_cc_number d.ccDigits
  category := d.category
  amount_usd_cents :=
    rand_range_inclusive d.rAmount
      (d.category.typical_amount_range).1 (d.category.typical_amount_range).2
  location := d.location
  is_online := d.isOnline

/-- Per-connection subscription registry, from `src/api/ws.rs`
(`client::WsClient`): a set of channels (a `HashSet<Channel>` in the
source, modelled as a finite set). -/
structure WsClient where
  channels : Finset Channel

/-- Initial registry of a fresh session (`WsClient::default()` in the
source): the empty set of channels. -/
def WsClient.default : WsClient := ⟨∅⟩

/-- Registry mutation `WsClient::subscribe` (`src/api/ws.rs`): inserts
the channel into the set. Total — the source has no error path. -/
def WsClient.subscribe (c : WsClient) (ch : Channel) : WsClient :=
  ⟨insert ch c.channels⟩

/-- Registry mutation `WsClient::unsubscribe` (`src/api/ws.rs`): removes
the channel from the set. Total — the source has no error path. -/
def WsClient.unsubscribe (c : WsClient) (ch : Channel) : WsClient :=
  ⟨c.channels.erase ch⟩

/-- Membership test `WsClient::is_subscribed` (`src/api/ws.rs`). -/
def WsClient.is_subscribed (c : WsClient) (ch : Channel) : Bool :=
  decide (ch ∈ c.channels)

/-- Channel-name parsing, from `src/api/ws.rs`
(`impl FromStr for Channel`): exactly "heartbeat" and "transactions" are
accepted; every other string yields the error value. -/
def Channel.from_str (s : String) : Except String Channel :=
  if s = "heartbeat" then Except.ok Channel.Heartbeat
  else if s = "transactions" then Except.ok Channel.Transactions
  else Except.error ("Invalid channel: " ++ s)

/-- Parameters of a subscribe command (`models::SubscribeParams`). -/
structure SubscribeParams where
  channel : String

/-- Parameters of an unsubscribe command (`models::UnsubscribeParams`). -/
structure UnsubscribeParams where
  channel : String

/-- Inbound command envelope, from `src/api/ws.rs` (`models::WsMessage`):
the `method` tag selects subscribe or unsubscribe. -/
inductive WsMessage
  | Subscribe (params : SubscribeParams)
  | Unsubscribe (params : UnsubscribeParams)

/-- Outbound broadcast envelope, from `src/api/ws.rs`
(`models::ChannelMsg`): tagged by channel, carrying either a batch of
transactions or one heartbeat. -/
inductive ChannelMsg
  | Transactions (data : List Transaction)
  | Heartbeat (data : Heartbeat)

/-- Inbound command processing, from `src/api/ws.rs` (`handle_incoming`):
parses the channel name and applies subscribe/unsubscribe to the
registry; an unparsable name is only logged. The second component is the
list of messages sent back to the client by this processing — every
branch of the source sends nothing, so it is empty in every branch. -/
def handle_incoming (msg : WsMessage) (c : WsClient) : WsClient × List ChannelMsg :=
  match msg with
  | WsMessage.Subscribe params =>
      match Channel.from_str params.channel with
      | Except.error _ => (c, [])
      | Except.ok channel => (c.subscribe channel, [])
  | WsMessage.Unsubscribe params =>
      match Channel.from_str params.channel with
      | Except.error _ => (c, [])
      | Except.ok channel => (c.unsubscribe channel, [])

/-- One inbound frame as seen by the read loop of `src/api/ws.rs`: a
text frame carries the outcome of `serde_json::from_str::<WsMessage>` (an
external codec, embedded by its result), any other frame kind is ignored
by the loop body. -/
inductive InboundFrame
  | text (parsed : Except String WsMessage)
  | nonText

/-- Body of the read loop of `src/api/ws.rs` (`read`) for one frame: a
text frame whose parse failed is only logged and the registry is left
unchanged; a parsed command is handed to `handle_incoming`; a non-text
frame is ignored. -/
def read_step (c : WsClient) (f : InboundFrame) : WsClient :=
  match f with
  | InboundFrame.text (Except.error _) => c
  | InboundFrame.text (Except.ok m) => (handle_incoming m c).1
  | InboundFrame.nonText => c

/-- The read loop of `src/api/ws.rs` (`read`) over a finite inbound
frame sequence: frames are processed in order, each by `read_step`. -/
def read_loop (c : WsClient) (frames : List InboundFrame) : WsClient :=
  frames.foldl read_step c

/-- One event received by the write loop of `src/api/ws.rs` (`write`)
from the broadcast hub: a heartbeat, a transaction, or a receive error
on either channel (`Err(_)` arm of `recv()`). -/
inductive HubEvent
  | heartbeat (h : Heartbeat)
  | transaction (t : Transaction)
  | heartbeatRecvError
  | transactionRecvError

/-- Body of the write loop of `src/api/ws.rs` (`write`) for one received
event: the list of envelopes written to the client socket for that
event. A heartbeat is sent unconditionally; a transaction is wrapped in
a one-element batch and sent only when the registry contains the
Transactions channel; receive errors are only logged. -/
def write_step (client : WsClient) (e : HubEvent) : List ChannelMsg :=
  match e with
  | HubEvent.heartbeat h => [ChannelMsg.Heartbeat h]
  | HubEvent.transaction t =>
      if client.is_subscribed Channel.Transactions then
        [ChannelMsg.Transactions [t]]
      else []
  | HubEvent.heartbeatRecvError => []
  | HubEvent.transactionRecvError => []

/-- Modelled contract of Rust's `str::parse::<usize>()` on a 64-bit
target, as called in `src/stream/transactions.rs`: an optional leading
plus sign, then one or more ascii digits, valued in base 10; the empty
digit sequence, any other character, and overflow past
18446744073709551615 are errors. -/
def parse_usize (s : String) : Option Nat :=
  let chars :=
    match s.toList with
    | '+' :: rest => rest
    | cs => cs
  if chars = [] then none
  else if chars.all (fun ch => ch.isDigit) then
    let n := chars.foldl (fun acc ch => acc * 10 + (ch.toNat - 48)) 0
    if n ≤ 18446744073709551615 then some n else none
  else none

/-- Buffer-size computation of the transactions channel, from
`src/stream/transactions.rs` (`channel`): the BROADCAST_BUFFER_SIZE
environment variable (modelled as an optional string) is parsed as a
usize with `unwrap_or(100)`, and an absent variable also falls back to
the default 100. -/
def transactions_buffer_size (env : Option String) : Nat :=
  match env with
  | none => 100
  | some s => (parse_usize s).getD 100

/-- JSON tree, the codomain of the serde codec as exercised by the
`Transaction` wire format: strings, unsigned integers, floating-point
numbers (carried opaquely), booleans, arrays and objects with ordered
string keys. -/
inductive Json
  | str (s : String)
  | num (n : Nat)
  | fnum (x : Float)
  | bool (b : Bool)
  | arr (elems : List Json)
  | obj (fields : List (String × Json))

/-- Wire string of a category, from the serde rename attributes on
`TransactionCategory` in `src/domain/mod.rs`. -/
def TransactionCategory.toWire : TransactionCategory → String
  | TransactionCategory.Grocery => "grocery"
  | TransactionCategory.GasStation => "gas_station"
  | TransactionCategory.Restaurant => "restaurant"
  | TransactionCategory.OnlineRetail => "online_retail"
  | TransactionCategory.Entertainment => "entertainment"
  | TransactionCategory.Travel => "travel"
  | TransactionCategory.Healthcare => "healthcare"
  | TransactionCategory.Utilities => "utilities"

/-- Inverse wire mapping of a category, from the serde rename attributes
on `TransactionCategory` in `src/domain/mod.rs`: any string other than
the 8 renames is a deserialization error. -/
def TransactionCategory.fromWire (s : String) : Option TransactionCategory :=
  if s = "grocery" then some TransactionCategory.Grocery
  else if s = "gas_station" then some TransactionCategory.GasStation
  else if s = "restaurant" then some TransactionCategory.Restaurant
  else if s = "online_retail" then some TransactionCategory.OnlineRetail
  else if s = "entertainment" then some TransactionCategory.Entertainment
  else if s = "travel" then some TransactionCategory.Travel
  else if s = "healthcare" then some TransactionCategory.Healthcare
  else if s = "utilities" then some TransactionCategory.Utilities
  else none

/-- Key lookup in a JSON object's field list, first match wins — the
behaviour of serde's map-driven struct deserialization. -/
def getField : List (String × Json) → String → Option Json
  | [], _ => none
  | (k, v) :: rest, key => if k = key then some v else getField rest key

/-- String extraction from a JSON value. -/
def Json.asStr : Json → Option String
  | Json.str s => some s
  | _ => none

/-- Unsigned-integer extraction from a JSON value. -/
def Json.asNat : Json → Option Nat
  | Json.num n => some n
  | _ => none

/-- Floating-point extraction from a JSON value. -/
def Json.asFloat : Json → Option Float
  | Json.fnum x => some x
  | _ => none

/-- Boolean extraction from a JSON value. -/
def Json.asBool : Json → Option Bool
  | Json.bool b => some b
  | _ => none

/-- Serialization of a `Transaction` to its wire JSON object, from the
serde derive on `Transaction` in `src/domain/mod.rs`: fields in
declaration order, with the `location` fields flattened into the
top-level object (the `serde(flatten)` attribute). -/
def Transaction.toJson (t : Transaction) : Json :=
  Json.obj
    [("id", Json.str t.id),
     ("timestamp", Json.str t.timestamp),
     ("cc_number", Json.str t.cc_number),
     ("category", Json.str t.category.toWire),
     ("amount_usd_cents", Json.num t.amount_usd_cents),
     ("city", Json.str t.location.city),
     ("country_iso", Json.str t.location.country_iso),
     ("latitude", Json.fnum t.location.latitude),
     ("longitude", Json.fnum t.location.longitude),
     ("is_online", Json.bool t.is_online)]

/-- Deserialization of a `Transaction` from its wire JSON object, from
the serde derive on `Transaction` in `src/domain/mod.rs`: each field is
looked up by key and type-checked, the flattened location fields are
reassembled, and any missing or ill-typed field is an error. -/
def Transaction.fromJson (j : Json) : Option Transaction :=
  match j with
  | Json.obj fields => do
      let tid ← (getField fields "id").bind Json.asStr
      let ts ← (getField fields "timestamp").bind Json.asStr
      let cc ← (getField fields "cc_number").bind Json.asStr
      let catStr ← (getField fields "category").bind Json.asStr
      let cat ← TransactionCategory.fromWire catStr
      let amt ← (getField fields "amount_usd_cents").bind Json.asNat
      let city ← (getField fields "city").bind Json.asStr
      let ciso ← (getField fields "country_iso").bind Json.asStr
      let lat ← (getField fields "latitude").bind Json.asFloat
      let lon ← (getField fields "longitude").bind Json.asFloat
      let online ← (getField fields "is_online").bind Json.asBool
      some
        { id := tid
          timestamp := ts
          cc_number := cc
          category := cat
          amount_usd_cents := amt
          location := { city := city, country_iso := ciso, latitude := lat, longitude := lon }
          is_online := online }
  | _ => none

/-- Concrete sample transaction used to instantiate hypotheses at a
concrete input. -/
def txExample : Transaction where
  id := "0123456789abcdef0123456789abcdef"
  timestamp := "2026-01-01T00:00:00+00:00"
  cc_number := "4000000000000002"
  category := TransactionCategory.Grocery
  amount_usd_cents := 4599
  location :=
    { city := "London", country_iso := "GB", latitude := 51.507351, longitude := -0.127758 }
  is_online := false

/-- Concrete registry containing exactly the Transactions channel. -/
def clientSubscribedTx : WsClient := ⟨{Channel.Transactions}⟩

/-- Concrete digit draws for the card-number generator. -/
def ccWitnessDigits : List Nat := [1, 2, 3, 4, 5, 6, 7, 8, 9, 0, 1, 2, 3, 4]

/-- The weighted sum only depends on the running index modulo 2: shifting
the starting index by two changes nothing. -/
theorem luhn_weighted_sum_add_two (l : List Nat) :
    ∀ idx, luhn_weighted_sum (idx + 2) l = luhn_weighted_sum idx l := by
  induction l with
  | nil => intro idx; rfl
  | cons d rest ih =>
      intro idx
      simp only [luhn_weighted_sum, Nat.add_mod_right]
      have h2 : idx + 2 + 1 = idx + 1 + 2 := by omega
      rw [h2, ih (idx + 1)]

/-- Appending the checksum digit computed by `calculate_luhn_checksum`
makes the validation sum of the whole sequence divisible by 10. -/
theorem luhn_sum_append_checksum (pre : List Nat) :
    luhn_sum (pre ++ [calculate_luhn_checksum pre]) % 10 = 0 := by
  have hrev : (pre ++ [calculate_luhn_checksum pre]).reverse
      = calculate_luhn_checksum pre :: pre.reverse := by
    simp
  have hshift : luhn_weighted_sum 2 pre.reverse = luhn_weighted_sum 0 pre.reverse :=
    luhn_weighted_sum_add_two pre.reverse 0
  unfold luhn_sum
  rw [hrev]
  simp only [luhn_weighted_sum]
  norm_num
  rw [hshift]
  unfold calculate_luhn_checksum
  omega

/-- C1: for every received transaction event, the outbound half forwards
the transaction to the client socket (as the singleton transactions
envelope) if and only if the session's registry contains the
Transactions topic at the moment of delivery; when the registry does not
contain Transactions, nothing is written for the event. -/
theorem c1_transaction_forwarded_iff (c : WsClient) (t : Transaction) :
    (write_step c (HubEvent.transaction t) = [ChannelMsg.Transactions [t]]
        ↔ c.is_subscribed Channel.Transactions = true)
    ∧ (c.is_subscribed Channel.Transactions = false
        → write_step c (HubEvent.transaction t) = []) := by
  cases hsub : c.is_subscribed Channel.Transactions with
  | false => simp [write_step, hsub]
  | true => simp [write_step, hsub]

/-- C2: for every received heartbeat event, the outbound half forwards
it to the client socket unconditionally — the written envelope list is
the heartbeat envelope for every registry state, including registries
not containing the Heartbeat topic. -/
theorem c2_heartbeat_always_forwarded (c : WsClient) (h : Heartbeat) :
    write_step c (HubEvent.heartbeat h) = [ChannelMsg.Heartbeat h] := rfl

/-- C3: applying subscribe twice in a row yields the same registry as
applying it once, and unsubscribing a topic the registry does not
contain leaves the registry unchanged (and succeeds: both operations are
total functions with no error outcome). -/
theorem c3_subscribe_idempotent_unsubscribe_noop (c : WsClient) (ch : Channel) :
    (c.subscribe ch).subscribe ch = c.subscribe ch
    ∧ (c.is_subscribed ch = false → c.unsubscribe ch = c) := by
  constructor
  · simp [WsClient.subscribe, Finset.insert_idem]
  · intro h
    have hm : ch ∉ c.channels := by
      simpa [WsClient.is_subscribed] using h
    show WsClient.mk (c.channels.erase ch) = c
    rw [Finset.erase_eq_of_not_mem hm]

/-- C4: a well-formed subscribe or unsubscribe command whose channel
string is neither "heartbeat" nor "transactions" leaves the registry
unchanged and sends no message back to the client; processing is total
(no crash). -/
theorem c4_unknown_channel_silently_rejected (s : String) (c : WsClient)
    (h1 : s ≠ "heartbeat") (h2 : s ≠ "transactions") :
    handle_incoming (WsMessage.Subscribe ⟨s⟩) c = (c, [])
    ∧ handle_incoming (WsMessage.Unsubscribe ⟨s⟩) c = (c, []) := by
  have hfs : Channel.from_str s = Except.error ("Invalid channel: " ++ s) := by
    simp [Channel.from_str, h1, h2]
  constructor <;> simp [handle_incoming, hfs]

/-- Witness for C4 at the concrete channel string "bogus" and the empty
registry. -/
theorem c4_witness :
    ("bogus" ≠ "heartbeat") ∧ ("bogus" ≠ "transactions")
    ∧ handle_incoming (WsMessage.Subscribe ⟨"bogus"⟩) WsClient.default
        = (WsClient.default, [])
    ∧ handle_incoming (WsMessage.Unsubscribe ⟨"bogus"⟩) WsClient.default
        = (WsClient.default, []) := by
  refine ⟨by decide, by decide, ?_, ?_⟩
  · exact (c4_unknown_channel_silently_rejected "bogus" WsClient.default
      (by decide) (by decide)).1
  · exact (c4_unknown_channel_silently_rejected "bogus" WsClient.default
      (by decide) (by decide)).2

/-- C5: a text frame whose parse failed is discarded by the inbound
half: the registry is left unchanged, and the loop goes on to process
the subsequent frames exactly as it would without the malformed frame
(the connection is not torn down). -/
theorem c5_malformed_frame_discarded (c : WsClient) (e : String)
    (rest : List InboundFrame) :
    read_step c (InboundFrame.text (Except.error e)) = c
    ∧ read_loop c (InboundFrame.text (Except.error e) :: rest) = read_loop c rest :=
  ⟨rfl, rfl⟩

/-- C6: the transactions channel's buffer capacity is the externally
supplied integer when the setting is present and parsable, and 100 when
the setting is absent or unparsable. -/
theorem c6_buffer_size_spec :
    transactions_buffer_size none = 100
    ∧ (∀ s n, parse_usize s = some n → transactions_buffer_size (some s) = n)
    ∧ (∀ s, parse_usize s = none → transactions_buffer_size (some s) = 100) := by
  refine ⟨rfl, ?_, ?_⟩
  · intro s n h
    simp [transactions_buffer_size, h]
  · intro s h
    simp [transactions_buffer_size, h]

/-- C7: every transactions envelope the outbound half writes carries
exactly one transaction in its data array, whatever the received event
and registry state. -/
theorem c7_transactions_envelope_singleton (c : WsClient) (e : HubEvent)
    (data : List Transaction)
    (h : ChannelMsg.Transactions data ∈ write_step c e) :
    data.length = 1 := by
  cases e with
  | heartbeat hb => simp [write_step] at h
  | transaction t =>
      cases hsub : c.is_subscribed Channel.Transactions with
      | false => simp [write_step, hsub] at h
      | true =>
          simp [write_step, hsub] at h
          simp [h]
  | heartbeatRecvError => simp [write_step] at h
  | transactionRecvError => simp [write_step] at h

/-- Witness for C7 at a concrete subscribed registry and transaction. -/
theorem c7_witness :
    (ChannelMsg.Transactions [txExample]
        ∈ write_step clientSubscribedTx (HubEvent.transaction txExample))
    ∧ ([txExample] : List Transaction).length = 1 := by
  have hmem : ChannelMsg.Transactions [txExample]
      ∈ write_step clientSubscribedTx (HubEvent.transaction txExample) :=
    List.mem_singleton.mpr rfl
  exact ⟨hmem, c7_transactions_envelope_singleton clientSubscribedTx
    (HubEvent.transaction txExample) [txExample] hmem⟩

/-- C8: every card number produced by the generator is Luhn-valid: for
any choice of the 14 random digits, the Luhn sum of the full digit
sequence (prefix digit, 14 drawn digits, appended checksum digit) —
doubling every second digit from the right with the subtract-9
correction — is congruent to 0 modulo 10. -/
theorem c8_generated_cc_luhn_valid (ds : List Nat) (_hlen : ds.length = 14)
    (_hdig : ∀ d ∈ ds, d < 10) :
    luhn_sum (generate_valid_cc_digits ds) % 10 = 0 := by
  unfold generate_valid_cc_digits
  exact luhn_sum_append_checksum (4 :: ds)

/-- Witness for C8 at a concrete list of 14 digit draws. -/
theorem c8_witness :
    ccWitnessDigits.length = 14
    ∧ (∀ d ∈ ccWitnessDigits, d < 10)
    ∧ luhn_sum (generate_valid_cc_digits ccWitnessDigits) % 10 = 0 :=
  ⟨by decide, by decide,
    c8_generated_cc_luhn_valid ccWitnessDigits (by decide) (by decide)⟩

/-- C9: serializing any transaction to its wire JSON object and parsing
that object back succeeds and yields a transaction equal field for field
to the original, the flattened location fields and the category
discriminant included — the representation loses nothing. -/
theorem c9_transaction_roundtrip (t : Transaction) :
    Transaction.fromJson (Transaction.toJson t) = some t := by
  obtain ⟨tid, ts, cc, cat, amt, ⟨city, ciso, lat, lon⟩, online⟩ := t
  cases cat <;> rfl

/-- C10: every transaction the mock generator produces has an amount in
the inclusive typical range of its category, for all random draws. -/
theorem c10_amount_within_typical_range (d : MockDraws) :
    (d.category.typical_amount_range).1 ≤ (Transaction.simple_mock d).amount_usd_cents
    ∧ (Transaction.simple_mock d).amount_usd_cents
        ≤ (d.category.typical_amount_range).2 := by
  obtain ⟨cat, loc, r, online, tid, ts, cc⟩ := d
  cases cat <;>
    · simp only [Transaction.simple_mock, TransactionCategory.typical_amount_range,
        rand_range_inclusive]
      omega
